import Mathlib

/-!
Verification of the bamboo-mapper-backend authentication core.

This file is a shallow embedding, in Lean 4, of the authentication and
session subsystem of the bamboo-mapper backend: the JWT access-token codec
(internal/auth/jwt.go), the refresh-token SQL store
(internal/repository/queries, refresh_tokens.sql), the request validation
models (internal/model), and the HTTP auth handlers
(internal/handler/auth.go).  Go strings are modelled as lists of bytes,
machine words as natural numbers reduced modulo 2^32, time instants as
integers (seconds), and each SQL statement as a pure function on an
explicit database value.  SHA-256 and base64url are embedded in full so
that the refresh-token digest pipeline is the real one.
-/

namespace BambooMapper

/-- A Go string: a sequence of bytes.  All byte values are < 256 for inputs
built with asciiBytes. -/
abbrev GoStr := List Nat

/-- Bytes of an ASCII Lean string literal; used to write concrete Go string
values in theorems. -/
def asciiBytes (s : String) : GoStr := s.toList.map Char.toNat

/-! ## SHA-256 (crypto/sha256), embedded in full -/

/-- Reduce to a 32-bit word. -/
def w32 (x : Nat) : Nat := x % 4294967296

/-- Right rotation of a 32-bit word. -/
def rotr (n x : Nat) : Nat := w32 ((x >>> n) ||| (x <<< (32 - n)))

def bigSigma0 (x : Nat) : Nat := (rotr 2 x) ^^^ (rotr 13 x) ^^^ (rotr 22 x)

def bigSigma1 (x : Nat) : Nat := (rotr 6 x) ^^^ (rotr 11 x) ^^^ (rotr 25 x)

def smallSigma0 (x : Nat) : Nat := (rotr 7 x) ^^^ (rotr 18 x) ^^^ (x >>> 3)

def smallSigma1 (x : Nat) : Nat := (rotr 17 x) ^^^ (rotr 19 x) ^^^ (x >>> 10)

def chFn (x y z : Nat) : Nat := (x &&& y) ^^^ ((x ^^^ 4294967295) &&& z)

def majFn (x y z : Nat) : Nat := (x &&& y) ^^^ (x &&& z) ^^^ (y &&& z)

/-- The 64 SHA-256 round constants. -/
def sha256K : List Nat :=
  [1116352408, 1899447441, 3049323471, 3921009573, 961987163,
   1508970993, 2453635748, 2870763221, 3624381080, 310598401,
   607225278, 1426881987, 1925078388, 2162078206, 2614888103,
   3248222580, 3835390401, 4022224774, 264347078, 604807628,
   770255983, 1249150122, 1555081692, 1996064986, 2554220882,
   2821834349, 2952996808, 3210313671, 3336571891, 3584528711,
   113926993, 338241895, 666307205, 773529912, 1294757372,
   1396182291, 1695183700, 1986661051, 2177026350, 2456956037,
   2730485921, 2820302411, 3259730800, 3345764771, 3516065817,
   3600352804, 4094571909, 275423344, 430227734, 506948616,
   659060556, 883997877, 958139571, 1322822218, 1537002063,
   1747873779, 1955562222, 2024104815, 2227730452, 2361852424,
   2428436474, 2756734187, 3204031479, 3329325298]

/-- SHA-256 working state: eight 32-bit words. -/
structure Hash8 where
  a : Nat
  b : Nat
  c : Nat
  d : Nat
  e : Nat
  f : Nat
  g : Nat
  h : Nat
deriving DecidableEq, Repr

/-- Initial SHA-256 hash value. -/
def sha256H0 : Hash8 :=
  ⟨1779033703, 3144134277, 1013904242, 2773480762, 1359893119, 2600822924, 528734635, 1541459225⟩

/-- Big-endian bytes of a value, n bytes wide. -/
def beBytes (n : Nat) (v : Nat) : List Nat :=
  (List.range n).map (fun i => (v >>> (8 * (n - 1 - i))) % 256)

/-- SHA-256 padding: append 0x80, zeros to 56 mod 64, then the 64-bit
big-endian bit length. -/
def padMessage (msg : List Nat) : List Nat :=
  let len := msg.length
  let k := (56 + 64 - ((len + 1) % 64)) % 64
  msg ++ [128] ++ List.replicate k 0 ++ beBytes 8 (len * 8)

/-- Split a byte list into 64-byte blocks; the fuel argument (any bound on
the number of blocks, in particular the list length) keeps the recursion
structural so the definition evaluates by kernel reduction. -/
def chunks64Fuel : Nat → List Nat → List (List Nat)
  | 0, _ => []
  | _, [] => []
  | fuel + 1, l => l.take 64 :: chunks64Fuel fuel (l.drop 64)

/-- Split a byte list into 64-byte blocks. -/
def chunks64 (l : List Nat) : List (List Nat) := chunks64Fuel l.length l

/-- Combine groups of 4 bytes into big-endian 32-bit words. -/
def toWords : List Nat → List Nat
  | b0 :: b1 :: b2 :: b3 :: rest =>
      ((b0 <<< 24) ||| (b1 <<< 16) ||| (b2 <<< 8) ||| b3) :: toWords rest
  | _ => []

/-- Extend the 16 block words to the 64-entry message schedule. -/
def extendW (w : Array Nat) : Array Nat :=
  (List.range 48).foldl
    (fun w i =>
      w.push (w32 (smallSigma1 (w.getD (i + 14) 0) + w.getD (i + 9) 0 +
                   smallSigma0 (w.getD (i + 1) 0) + w.getD i 0)))
    w

/-- One SHA-256 compression round. -/
def sha256Round (w : Array Nat) (st : Hash8) (i : Nat) : Hash8 :=
  let t1 := w32 (st.h + bigSigma1 st.e + chFn st.e st.f st.g + sha256K.getD i 0 + w.getD i 0)
  let t2 := w32 (bigSigma0 st.a + majFn st.a st.b st.c)
  ⟨w32 (t1 + t2), st.a, st.b, st.c, w32 (st.d + t1), st.e, st.f, st.g⟩

/-- Compress one 64-byte block into the running hash. -/
def compressBlock (hs : Hash8) (block : List Nat) : Hash8 :=
  let w := extendW (toWords block).toArray
  let st := (List.range 64).foldl (sha256Round w) hs
  ⟨w32 (hs.a + st.a), w32 (hs.b + st.b), w32 (hs.c + st.c), w32 (hs.d + st.d),
   w32 (hs.e + st.e), w32 (hs.f + st.f), w32 (hs.g + st.g), w32 (hs.h + st.h)⟩

/-- SHA-256 digest of a byte sequence, as 32 bytes. -/
def sha256Bytes (msg : List Nat) : List Nat :=
  let hs := (chunks64 (padMessage msg)).foldl compressBlock sha256H0
  beBytes 4 hs.a ++ beBytes 4 hs.b ++ beBytes 4 hs.c ++ beBytes 4 hs.d ++
  beBytes 4 hs.e ++ beBytes 4 hs.f ++ beBytes 4 hs.g ++ beBytes 4 hs.h

/-! ## Hex and base64url encodings -/

/-- Lowercase hex digit as a byte (encoding/hex alphabet). -/
def hexDigit (n : Nat) : Nat := if n < 10 then 48 + n else 87 + n

/-- encoding/hex EncodeToString over bytes. -/
def bytesToHex (bs : List Nat) : List Nat :=
  bs.flatMap (fun b => [hexDigit (b / 16), hexDigit (b % 16)])

/-- base64.URLEncoding alphabet character for a 6-bit index. -/
def b64Char (i : Nat) : Nat :=
  if i < 26 then 65 + i
  else if i < 52 then 97 + (i - 26)
  else if i < 62 then 48 + (i - 52)
  else if i = 62 then 45 else 95

/-- base64.URLEncoding.EncodeToString over bytes (with padding). -/
def base64url : List Nat → List Nat
  | [] => []
  | [b1] =>
      let n := b1 <<< 16
      [b64Char ((n >>> 18) &&& 63), b64Char ((n >>> 12) &&& 63), 61, 61]
  | [b1, b2] =>
      let n := (b1 <<< 16) ||| (b2 <<< 8)
      [b64Char ((n >>> 18) &&& 63), b64Char ((n >>> 12) &&& 63), b64Char ((n >>> 6) &&& 63), 61]
  | b1 :: b2 :: b3 :: rest =>
      let n := (b1 <<< 16) ||| (b2 <<< 8) ||| b3
      [b64Char ((n >>> 18) &&& 63), b64Char ((n >>> 12) &&& 63),
       b64Char ((n >>> 6) &&& 63), b64Char (n &&& 63)] ++ base64url rest


/-! ## Go string operations used by the validation layer -/

/-- ASCII whitespace, as classified by unicode.IsSpace on single-byte
characters: space, tab, newline, vertical tab, form feed, carriage return. -/
def goIsSpace (b : Nat) : Bool :=
  b == 32 || b == 9 || b == 10 || b == 11 || b == 12 || b == 13

/-- Drop leading whitespace bytes. -/
def trimLeftSpace : GoStr → GoStr
  | [] => []
  | b :: rest => if goIsSpace b then trimLeftSpace rest else b :: rest

/-- strings.TrimSpace: drop leading and trailing whitespace. -/
def trimSpace (s : GoStr) : GoStr :=
  ((trimLeftSpace ((trimLeftSpace s).reverse)).reverse)

/-- strings.Index for a single-byte substring: first index or -1. -/
def indexByte : GoStr → Nat → Int
  | [], _ => -1
  | c :: rest, b =>
      if c = b then 0
      else
        let r := indexByte rest b
        if r < 0 then -1 else r + 1

/-- strings.LastIndex for a single-byte substring: last index or -1. -/
def lastIndexByte : GoStr → Nat → Int
  | [], _ => -1
  | c :: rest, b =>
      let r := lastIndexByte rest b
      if r ≥ 0 then r + 1 else if c = b then 0 else -1

/-- strings.ToLower restricted to ASCII letters. -/
def toLowerAscii (s : GoStr) : GoStr :=
  s.map (fun b => if 65 ≤ b ∧ b ≤ 90 then b + 32 else b)

/-! ## Request models and validation (internal/model) -/

/-- model.RegisterRequest. -/
structure RegisterRequest where
  email : GoStr
  name : GoStr
  password : GoStr
deriving DecidableEq, Repr

/-- model.isValidEmail: basic email format check (length bounds, an at-sign
not in first position, a dot strictly between the at-sign and the last
character). -/
def isValidEmail (email : GoStr) : Bool :=
  if email.length < 3 || email.length > 255 then false
  else
    let atIndex := indexByte email 64
    if atIndex < 1 then false
    else
      let dotIndex := lastIndexByte email 46
      decide (dotIndex > atIndex + 1) && decide (dotIndex < (email.length : Int) - 1)

/-- model.RegisterRequest.Validate.  The Go method trims Email and Name in
place and returns a map of field errors; modelled as returning the error
list (in field-check order) together with the mutated request. -/
def validateRegister (r : RegisterRequest) : List (String × String) × RegisterRequest :=
  let email := trimSpace r.email
  let name := trimSpace r.name
  let emailErrs :=
    if email = [] then [(("email" : String), ("email is required" : String))]
    else if !isValidEmail email then [(("email" : String), ("invalid email format" : String))]
    else []
  let nameErrs :=
    if name = [] then [(("name" : String), ("name is required" : String))]
    else if name.length > 100 then [(("name" : String), ("name must be 100 characters or less" : String))]
    else []
  let passwordErrs :=
    if r.password = [] then [(("password" : String), ("password is required" : String))]
    else if r.password.length < 8 then [(("password" : String), ("password must be at least 8 characters" : String))]
    else []
  (emailErrs ++ nameErrs ++ passwordErrs, { r with email := email, name := name })

/-- model.LoginRequest. -/
structure LoginRequest where
  email : GoStr
  password : GoStr
deriving DecidableEq, Repr

/-- model.LoginRequest.Validate: trims Email in place; Email and Password
must be nonempty. -/
def validateLogin (r : LoginRequest) : List (String × String) × LoginRequest :=
  let email := trimSpace r.email
  let emailErrs := if email = [] then [(("email" : String), ("email is required" : String))] else []
  let passwordErrs := if r.password = [] then [(("password" : String), ("password is required" : String))] else []
  (emailErrs ++ passwordErrs, { r with email := email })

/-- model.RefreshRequest. -/
structure RefreshRequest where
  refreshToken : GoStr
deriving DecidableEq, Repr

/-- model.RefreshRequest.Validate: the refresh_token field must not be
empty or whitespace-only.  The Go method does not mutate the request. -/
def validateRefresh (r : RefreshRequest) : List (String × String) :=
  if trimSpace r.refreshToken = [] then
    [(("refresh_token" : String), ("refresh_token is required" : String))]
  else []

/-! ## Credential hasher (golang.org/x/crypto/bcrypt as used by the handlers)

bcrypt itself is an external collaborator; only the success or failure of
verification influences the handlers' control flow.  It is modelled by an
injective tagging function: a stored digest verifies against exactly the
password it was derived from. -/

/-- Models bcrypt.GenerateFromPassword: an abstract one-way digest of the
password (injective tag; the adaptive work factor carries no logical
content). -/
def bcryptHash (password : GoStr) : GoStr := 98 :: 99 :: 36 :: password

/-- Models bcrypt.CompareHashAndPassword: true exactly when the stored
digest was derived from the presented password. -/
def bcryptCompare (storedHash password : GoStr) : Bool :=
  storedHash = bcryptHash password

/-! ## Token codec (internal/auth/jwt.go) -/

/-- JWT signing algorithms relevant to the codec: the symmetric HMAC family
accepted by the key function, plus representatives of what it rejects
(asymmetric algorithms and alg:none). -/
inductive SigningAlg where
  | HS256
  | HS384
  | HS512
  | RS256
  | ES256
  | algNone
deriving DecidableEq, Repr

/-- Membership in the symmetric HMAC family (jwt.SigningMethodHMAC). -/
def SigningAlg.isHMAC : SigningAlg → Bool
  | .HS256 | .HS384 | .HS512 => true
  | _ => false

/-- auth.Claims: the JWT claims carried by an access token.  Registered
claims that the library stores as optional pointers are Option-valued. -/
structure JWTClaims where
  userID : Nat
  email : GoStr
  role : GoStr
  expiresAt : Option Int
  issuedAt : Option Int
  notBefore : Option Int
  issuer : GoStr
  subject : GoStr
deriving DecidableEq, Repr

/-- Canonical string form of a user id, modelling uuid.UUID.String(). -/
def uuidString (uid : Nat) : GoStr := asciiBytes (toString uid)

/-- An HMAC signature value: modelled as the (key, algorithm, payload)
triple that produced it, so that verification succeeds exactly for a
signature produced with the same key over the same header and claims. -/
structure HMACSignature where
  key : GoStr
  alg : SigningAlg
  payload : JWTClaims
deriving DecidableEq, Repr

/-- A structurally well-formed signed JWT: header algorithm, claims and
signature. -/
structure SignedJWT where
  alg : SigningAlg
  claims : JWTClaims
  sig : HMACSignature
deriving DecidableEq, Repr

/-- A token string as presented by a client: either it parses into a signed
JWT or it is malformed. -/
inductive TokenString where
  | wellFormed (t : SignedJWT)
  | malformed (raw : GoStr)
deriving DecidableEq, Repr

/-- auth.JWTManager: the symmetric secret and the two configured TTLs
(in seconds, matching JWT NumericDate granularity). -/
structure JWTManager where
  secretKey : GoStr
  accessTokenExpiry : Int
  refreshTokenExpiry : Int
deriving DecidableEq, Repr

/-- JWTManager.GenerateAccessToken: builds claims with exp = now + TTL,
iat = nbf = now, issuer bamboo-mapper, subject = userID.String(), and signs
with HS256 under the manager's secret. -/
def generateAccessToken (m : JWTManager) (userID : Nat) (email role : GoStr) (now : Int) :
    TokenString :=
  let claims : JWTClaims := {
    userID := userID
    email := email
    role := role
    expiresAt := some (now + m.accessTokenExpiry)
    issuedAt := some now
    notBefore := some now
    issuer := asciiBytes ("bamboo-mapper")
    subject := uuidString userID }
  .wellFormed { alg := .HS256, claims := claims,
                sig := { key := m.secretKey, alg := .HS256, payload := claims } }

/-- The two error values of the token codec (auth.ErrInvalidToken and
auth.ErrExpiredToken). -/
inductive TokenError where
  | invalidToken
  | expiredToken
deriving DecidableEq, Repr

/-- JWTManager.ValidateAccessToken, following the jwt/v5 ParseWithClaims
pipeline: a parse failure or a non-HMAC header algorithm (key function
rejection) or a bad signature yields ErrInvalidToken; then claims are
validated: the token is valid only while now is strictly before exp
(cmp.Before(exp)), so an exp at or before now yields ErrExpiredToken
(which the caller detects via errors.Is even when other claim checks also
fail), and a not-before still in the future yields ErrInvalidToken.  The
default validator does not check iat (that needs the WithIssuedAt option,
which the source does not pass). -/
def validateAccessToken (m : JWTManager) (tok : TokenString) (now : Int) :
    Except TokenError JWTClaims :=
  match tok with
  | .malformed _ => .error .invalidToken
  | .wellFormed t =>
    if !t.alg.isHMAC then .error .invalidToken
    else if t.sig ≠ { key := m.secretKey, alg := t.alg, payload := t.claims } then
      .error .invalidToken
    else if (match t.claims.expiresAt with | some e => decide (now ≥ e) | none => false) then
      .error .expiredToken
    else if (match t.claims.notBefore with | some b => decide (now < b) | none => false) then
      .error .invalidToken
    else .ok t.claims

/-- The triple returned by JWTManager.GenerateRefreshToken. -/
structure GeneratedRefreshToken where
  rawToken : GoStr
  tokenHash : GoStr
  expiresAt : Int
deriving DecidableEq, Repr

/-- HashRefreshToken: lowercase hex of the SHA-256 digest of the raw token
bytes.  A pure function of its argument alone: no key, no salt, no process
state. -/
def hashRefreshToken (rawToken : GoStr) : GoStr :=
  bytesToHex (sha256Bytes rawToken)

/-- JWTManager.GenerateRefreshToken: the 32 random bytes drawn from
crypto/rand are passed explicitly; the raw token is their base64url
encoding, the stored hash is the SHA-256 hex digest of the raw token, and
the expiry is now plus the configured refresh TTL. -/
def generateRefreshToken (m : JWTManager) (tokenBytes : List Nat) (now : Int) :
    GeneratedRefreshToken :=
  let rawToken := base64url tokenBytes
  { rawToken := rawToken
    tokenHash := bytesToHex (sha256Bytes rawToken)
    expiresAt := now + m.refreshTokenExpiry }

/-! ## Persistence model (migrations/000001, repository/queries) -/

/-- users table row (the columns the auth core reads). -/
structure User where
  id : Nat
  email : GoStr
  passwordHash : GoStr
  name : GoStr
  role : GoStr
deriving DecidableEq, Repr

/-- refresh_tokens table row. -/
structure RefreshTokenRecord where
  id : Nat
  userID : Nat
  tokenHash : GoStr
  expiresAt : Int
  revokedAt : Option Int
  createdAt : Int
  userAgent : Option GoStr
  ipAddress : Option GoStr
deriving DecidableEq, Repr

/-- The backing store: both tables plus a fresh-id counter for inserted
refresh-token rows. -/
structure Database where
  users : List User
  refreshTokens : List RefreshTokenRecord
  nextTokenID : Nat
deriving DecidableEq, Repr

/-- The active-lookup predicate of GetRefreshTokenByHash:
token_hash = $1 AND revoked_at IS NULL AND expires_at > NOW(). -/
def refreshTokenActive (now : Int) (hash : GoStr) (r : RefreshTokenRecord) : Bool :=
  decide (r.tokenHash = hash) && decide (r.revokedAt = none) && decide (r.expiresAt > now)

/-- GetRefreshTokenByHash: the first row satisfying the active predicate,
or sql.ErrNoRows (none). -/
def getRefreshTokenByHash (db : Database) (now : Int) (hash : GoStr) :
    Option RefreshTokenRecord :=
  db.refreshTokens.find? (refreshTokenActive now hash)

/-- RevokeRefreshToken: UPDATE refresh_tokens SET revoked_at = NOW()
WHERE token_hash = $1 (unconditional on current revocation state). -/
def revokeRefreshToken (db : Database) (now : Int) (hash : GoStr) : Database :=
  { db with refreshTokens :=
      db.refreshTokens.map (fun r =>
        if r.tokenHash = hash then { r with revokedAt := some now } else r) }

/-- RevokeAllUserRefreshTokens: UPDATE refresh_tokens SET revoked_at = NOW()
WHERE user_id = $1 AND revoked_at IS NULL. -/
def revokeAllUserRefreshTokens (db : Database) (now : Int) (uid : Nat) : Database :=
  { db with refreshTokens :=
      db.refreshTokens.map (fun r =>
        if r.userID = uid ∧ r.revokedAt = none then { r with revokedAt := some now } else r) }

/-- repository.CreateRefreshTokenParams. -/
structure CreateRefreshTokenParams where
  userID : Nat
  tokenHash : GoStr
  expiresAt : Int
  userAgent : Option GoStr
  ipAddress : Option GoStr
deriving DecidableEq, Repr

/-- CreateRefreshToken: INSERT a new active row (revoked_at NULL,
created_at NOW()) and return it. -/
def createRefreshToken (db : Database) (now : Int) (p : CreateRefreshTokenParams) :
    RefreshTokenRecord × Database :=
  let row : RefreshTokenRecord := {
    id := db.nextTokenID
    userID := p.userID
    tokenHash := p.tokenHash
    expiresAt := p.expiresAt
    revokedAt := none
    createdAt := now
    userAgent := p.userAgent
    ipAddress := p.ipAddress }
  (row, { db with refreshTokens := db.refreshTokens ++ [row],
                  nextTokenID := db.nextTokenID + 1 })

/-- GetUserByEmail. -/
def getUserByEmail (db : Database) (email : GoStr) : Option User :=
  db.users.find? (fun u => decide (u.email = email))

/-- GetUserByID. -/
def getUserByID (db : Database) (uid : Nat) : Option User :=
  db.users.find? (fun u => decide (u.id = uid))

/-! ## Auth handlers (internal/handler/auth.go)

Each handler is a pure function of the parsed request, the database value,
the randomness drawn inside the call and the clock.  Along with the
outcome and the updated database it returns the ordered list of store and
hashing operations it performed, so that ordering and absence-of-work
properties are statable. -/

/-- One store or credential-hasher operation, in the order issued. -/
inductive StoreOp where
  | opGetRefreshToken (hash : GoStr)
  | opRevokeRefreshToken (hash : GoStr)
  | opRevokeAllUserTokens (uid : Nat)
  | opGetUserByEmail (email : GoStr)
  | opGetUserByID (uid : Nat)
  | opCreateRefreshToken (hash : GoStr)
  | opCreateUser (email : GoStr)
  | opBcryptCompare
  | opBcryptHash
deriving DecidableEq, Repr

/-- A handler run: HTTP-level outcome, resulting database, operation
trace. -/
structure HandlerResult (α : Type) where
  outcome : α
  db : Database
  ops : List StoreOp
deriving DecidableEq, Repr

/-- model.LoginResponse / model.RefreshResponse payload (token pair). -/
structure TokenPairResponse where
  accessToken : TokenString
  refreshToken : GoStr
  tokenType : String
  expiresIn : Int
deriving DecidableEq, Repr

/-- Outcomes of AuthHandler.Login. -/
inductive LoginOutcome where
  | ok (resp : TokenPairResponse) (userID : Nat)
  | validationFailed (errs : List (String × String))
  | invalidCredentials
  | internalError (msg : String)
deriving DecidableEq, Repr

/-- AuthHandler.Login: validate; fetch user by lowercased (trimmed) email,
an absent user returning the invalid-credentials error immediately;
otherwise compare the bcrypt digest, a mismatch returning the same
invalid-credentials error; then issue the access token, generate and store
a refresh token, and return the pair. -/
def loginHandler (m : JWTManager) (db : Database) (req0 : LoginRequest)
    (tokenBytes : List Nat) (now : Int) (ua ip : Option GoStr) :
    HandlerResult LoginOutcome :=
  let v := validateLogin req0
  if v.1 ≠ [] then ⟨.validationFailed v.1, db, []⟩
  else
    let req := v.2
    let emailLower := toLowerAscii req.email
    match getUserByEmail db emailLower with
    | none => ⟨.invalidCredentials, db, [.opGetUserByEmail emailLower]⟩
    | some user =>
      if !bcryptCompare user.passwordHash req.password then
        ⟨.invalidCredentials, db, [.opGetUserByEmail emailLower, .opBcryptCompare]⟩
      else
        let access := generateAccessToken m user.id user.email user.role now
        let g := generateRefreshToken m tokenBytes now
        let created := createRefreshToken db now {
          userID := user.id
          tokenHash := g.tokenHash
          expiresAt := g.expiresAt
          userAgent := ua
          ipAddress := ip }
        ⟨.ok { accessToken := access, refreshToken := g.rawToken,
               tokenType := ("Bearer" : String), expiresIn := m.accessTokenExpiry } user.id,
         created.2,
         [.opGetUserByEmail emailLower, .opBcryptCompare, .opCreateRefreshToken g.tokenHash]⟩

/-- Outcomes of AuthHandler.Refresh. -/
inductive RefreshOutcome where
  | ok (resp : TokenPairResponse)
  | validationFailed (errs : List (String × String))
  | invalidRefreshToken
  | internalError (msg : String)
deriving DecidableEq, Repr

/-- Whether a refresh outcome is a success. -/
def RefreshOutcome.isOk : RefreshOutcome → Bool
  | .ok _ => true
  | _ => false

/-- AuthHandler.Refresh: validate; hash the presented token and look up an
active row, sql.ErrNoRows mapping to the single unauthorized
invalid-refresh-token outcome; revoke the old hash (rotation); fetch the
owning user fresh; issue a new access token; generate and store a new
refresh token; return the pair. -/
def refreshHandler (m : JWTManager) (db : Database) (req : RefreshRequest)
    (tokenBytes : List Nat) (now : Int) (ua ip : Option GoStr) :
    HandlerResult RefreshOutcome :=
  let errs := validateRefresh req
  if errs ≠ [] then ⟨.validationFailed errs, db, []⟩
  else
    let tokenHash := hashRefreshToken req.refreshToken
    match getRefreshTokenByHash db now tokenHash with
    | none => ⟨.invalidRefreshToken, db, [.opGetRefreshToken tokenHash]⟩
    | some stored =>
      let db1 := revokeRefreshToken db now tokenHash
      match getUserByID db1 stored.userID with
      | none =>
          ⟨.internalError ("Failed to fetch user"), db1,
           [.opGetRefreshToken tokenHash, .opRevokeRefreshToken tokenHash,
            .opGetUserByID stored.userID]⟩
      | some user =>
          let access := generateAccessToken m user.id user.email user.role now
          let g := generateRefreshToken m tokenBytes now
          let created := createRefreshToken db1 now {
            userID := stored.userID
            tokenHash := g.tokenHash
            expiresAt := g.expiresAt
            userAgent := ua
            ipAddress := ip }
          ⟨.ok { accessToken := access, refreshToken := g.rawToken,
                 tokenType := ("Bearer" : String), expiresIn := m.accessTokenExpiry },
           created.2,
           [.opGetRefreshToken tokenHash, .opRevokeRefreshToken tokenHash,
            .opGetUserByID stored.userID, .opCreateRefreshToken g.tokenHash]⟩

/-- Outcomes of AuthHandler.Register. -/
inductive RegisterOutcome where
  | ok (userID : Nat)
  | validationFailed (errs : List (String × String))
  | conflictDuplicateEmail
  | internalError (msg : String)
deriving DecidableEq, Repr

/-- AuthHandler.Register: validate; bcrypt-hash the password; insert the
user with lowercased email and role user, a unique-constraint violation on
the email mapping to the conflict outcome. -/
def registerHandler (db : Database) (req0 : RegisterRequest) (newUserID : Nat) :
    HandlerResult RegisterOutcome :=
  let v := validateRegister req0
  if v.1 ≠ [] then ⟨.validationFailed v.1, db, []⟩
  else
    let req := v.2
    let emailLower := toLowerAscii req.email
    let digest := bcryptHash req.password
    if (db.users.find? (fun u => decide (u.email = emailLower))).isSome then
      ⟨.conflictDuplicateEmail, db, [.opBcryptHash, .opCreateUser emailLower]⟩
    else
      let user : User := {
        id := newUserID
        email := emailLower
        passwordHash := digest
        name := req.name
        role := asciiBytes ("user") }
      ⟨.ok newUserID, { db with users := db.users ++ [user] },
       [.opBcryptHash, .opCreateUser emailLower]⟩

/-- Outcome of the Logout endpoint. -/
inductive LogoutOutcome where
  | ok
deriving DecidableEq, Repr

/-- Modelled from the spec: the AuthHandler.Logout body is absent from the
source tree (only its route registration, its tests and the
RevokeAllUserRefreshTokens query it relies on are present).  Per spec
section 4.4, Logout takes the authenticated user id from the verified
access-token claims and revokes all active refresh records for that user
via RevokeAllUserRefreshTokens. -/
def logoutHandler (db : Database) (userID : Nat) (now : Int) :
    HandlerResult LogoutOutcome :=
  ⟨.ok, revokeAllUserRefreshTokens db now userID, [.opRevokeAllUserTokens userID]⟩

/-! ## Interleaved semantics of Refresh (section 5 of the spec)

Each inbound request runs on its own worker; the only shared state is the
database, and each SQL statement executes atomically.  AuthHandler.Refresh
issues its four statements (SELECT, UPDATE, SELECT, INSERT) as separate
commands with no enclosing transaction, so concurrent refreshes interleave
at statement granularity.  The machine below is the statement-level
small-step semantics of the same handler body. -/

/-- The per-request inputs of one Refresh call. -/
structure RefreshThreadInput where
  req : RefreshRequest
  tokenBytes : List Nat
  now : Int
  ua : Option GoStr
  ip : Option GoStr
deriving DecidableEq, Repr

/-- Control point of one in-flight Refresh call, between atomic SQL
statements. -/
inductive RefreshPhase where
  | start
  | afterLookup (found : Option RefreshTokenRecord)
  | afterRevoke (stored : RefreshTokenRecord)
  | afterGetUser (stored : RefreshTokenRecord) (user : Option User)
  | finished (outcome : RefreshOutcome)
deriving DecidableEq, Repr

/-- Whether an in-flight Refresh call has finished successfully. -/
def RefreshPhase.isOk : RefreshPhase → Bool
  | .finished (.ok _) => true
  | _ => false

/-- One atomic step of a Refresh call: request validation plus the SELECT
by hash, then the rotation UPDATE, then the user SELECT, then the INSERT
of the replacement row together with the response. -/
def refreshStep (m : JWTManager) (t : RefreshThreadInput) :
    RefreshPhase × Database → RefreshPhase × Database
  | (.start, db) =>
      if validateRefresh t.req ≠ [] then
        (.finished (.validationFailed (validateRefresh t.req)), db)
      else
        (.afterLookup (getRefreshTokenByHash db t.now (hashRefreshToken t.req.refreshToken)), db)
  | (.afterLookup none, db) => (.finished .invalidRefreshToken, db)
  | (.afterLookup (some stored), db) =>
      (.afterRevoke stored, revokeRefreshToken db t.now (hashRefreshToken t.req.refreshToken))
  | (.afterRevoke stored, db) => (.afterGetUser stored (getUserByID db stored.userID), db)
  | (.afterGetUser _ none, db) => (.finished (.internalError ("Failed to fetch user")), db)
  | (.afterGetUser stored (some user), db) =>
      let g := generateRefreshToken m t.tokenBytes t.now
      let created := createRefreshToken db t.now {
        userID := stored.userID
        tokenHash := g.tokenHash
        expiresAt := g.expiresAt
        userAgent := t.ua
        ipAddress := t.ip }
      (.finished (.ok { accessToken := generateAccessToken m user.id user.email user.role t.now,
                        refreshToken := g.rawToken, tokenType := ("Bearer" : String),
                        expiresIn := m.accessTokenExpiry }),
       created.2)
  | (.finished o, db) => (.finished o, db)

/-- Shared state of two concurrent Refresh calls. -/
structure ConcurrentState where
  phaseA : RefreshPhase
  phaseB : RefreshPhase
  db : Database
deriving DecidableEq, Repr

/-- Run one scheduled step: true steps thread A, false steps thread B. -/
def concStep (m : JWTManager) (tA tB : RefreshThreadInput) (s : ConcurrentState)
    (pick : Bool) : ConcurrentState :=
  if pick then
    let r := refreshStep m tA (s.phaseA, s.db)
    { s with phaseA := r.1, db := r.2 }
  else
    let r := refreshStep m tB (s.phaseB, s.db)
    { s with phaseB := r.1, db := r.2 }

/-- Run a schedule of interleaved steps of the two calls. -/
def runSchedule (m : JWTManager) (tA tB : RefreshThreadInput)
    (sched : List Bool) (s : ConcurrentState) : ConcurrentState :=
  sched.foldl (concStep m tA tB) s

/-! ## Concrete fixtures used by witnesses and counterexamples -/

/-- A concrete manager configuration (15-minute access TTL, 7-day refresh
TTL, both in seconds). -/
def exampleManager : JWTManager :=
  { secretKey := asciiBytes ("unit-test-secret"), accessTokenExpiry := 900,
    refreshTokenExpiry := 604800 }

/-- A concrete raw refresh-token secret. -/
def exampleRawToken : GoStr := asciiBytes ("example-refresh-token")

/-- A concrete registered user. -/
def exampleUser : User :=
  { id := 1, email := asciiBytes ("login@example.com"),
    passwordHash := bcryptHash (asciiBytes ("password123")),
    name := asciiBytes ("Login Test User"), role := asciiBytes ("user") }

/-- A stored active refresh-token row for exampleRawToken. -/
def exampleRecord : RefreshTokenRecord :=
  { id := 10, userID := 1, tokenHash := hashRefreshToken exampleRawToken,
    expiresAt := 1000, revokedAt := none, createdAt := 0,
    userAgent := none, ipAddress := none }

/-- A database with one user and one active session. -/
def exampleDB : Database :=
  { users := [exampleUser], refreshTokens := [exampleRecord], nextTokenID := 11 }

/-- A database with one user and no stored sessions. -/
def exampleEmptyDB : Database :=
  { users := [exampleUser], refreshTokens := [], nextTokenID := 0 }

/-- The refresh request presenting exampleRawToken. -/
def exampleRefreshRequest : RefreshRequest := { refreshToken := exampleRawToken }

/-- A second concrete raw refresh-token secret (a second open session). -/
def exampleRawToken2 : GoStr := asciiBytes ("second-session-token")

/-- A stored active refresh-token row for exampleRawToken2, same owner. -/
def exampleRecord2 : RefreshTokenRecord :=
  { id := 12, userID := 1, tokenHash := hashRefreshToken exampleRawToken2,
    expiresAt := 1000, revokedAt := none, createdAt := 5,
    userAgent := none, ipAddress := none }

/-- A database where user 1 holds two concurrent active sessions. -/
def exampleTwoSessionDB : Database :=
  { users := [exampleUser], refreshTokens := [exampleRecord, exampleRecord2],
    nextTokenID := 13 }

/-- A login request whose email matches no stored user. -/
def missingUserLoginRequest : LoginRequest :=
  { email := asciiBytes ("ghost@example.com"), password := asciiBytes ("password123") }

/-- A login request for exampleUser with the wrong password. -/
def wrongPasswordLoginRequest : LoginRequest :=
  { email := asciiBytes ("login@example.com"), password := asciiBytes ("wrongpassword") }

/-- Thread A of the concurrent-refresh scenario: presents exampleRawToken. -/
def exampleThreadA : RefreshThreadInput :=
  { req := exampleRefreshRequest, tokenBytes := List.replicate 32 1, now := 500,
    ua := none, ip := none }

/-- Thread B of the concurrent-refresh scenario: presents the same raw
token, with its own randomness. -/
def exampleThreadB : RefreshThreadInput :=
  { req := exampleRefreshRequest, tokenBytes := List.replicate 32 2, now := 500,
    ua := none, ip := none }

/-! ## General lemmas about the store operations -/

/-- The active lookup misses exactly when no stored row satisfies the
combined predicate. -/
theorem getRefreshTokenByHash_eq_none_iff (db : Database) (now : Int) (hash : GoStr) :
    getRefreshTokenByHash db now hash = none ↔
      ∀ r ∈ db.refreshTokens, ¬(r.tokenHash = hash ∧ r.revokedAt = none ∧ r.expiresAt > now) := by
  unfold getRefreshTokenByHash
  rw [List.find?_eq_none]
  constructor
  · intro h r hr hc
    have := h r hr
    simp [refreshTokenActive, hc.1, hc.2.1, hc.2.2] at this
  · intro h r hr
    intro hact
    simp only [refreshTokenActive, Bool.and_eq_true, decide_eq_true_eq] at hact
    exact h r hr ⟨hact.1.1, hact.1.2, hact.2⟩

/-- Any row found by the active lookup is a stored row satisfying the
combined predicate. -/
theorem getRefreshTokenByHash_some (db : Database) (now : Int) (hash : GoStr)
    (r : RefreshTokenRecord) (h : getRefreshTokenByHash db now hash = some r) :
    r ∈ db.refreshTokens ∧ r.tokenHash = hash ∧ r.revokedAt = none ∧ r.expiresAt > now := by
  have hmem := List.mem_of_find?_eq_some h
  have hact := List.find?_some h
  simp only [refreshTokenActive, Bool.and_eq_true, decide_eq_true_eq] at hact
  exact ⟨hmem, hact.1.1, hact.1.2, hact.2⟩

/-! ## C2: the active-lookup predicate and the single undifferentiated error -/

/-- C2: the active lookup by digest returns a stored row only if its
revocation timestamp is null and its expiry is strictly after now, misses
exactly when no stored row satisfies that combined predicate, and whenever
it misses — whether the digest is absent, expired, or revoked — the
Refresh handler returns the one invalid-refresh-token outcome and leaves
the store unchanged, with no observable distinction among the three
causes. -/
theorem refresh_active_lookup_characterization (db : Database) (now : Int) (hash : GoStr) :
    (∀ r, getRefreshTokenByHash db now hash = some r →
        r ∈ db.refreshTokens ∧ r.tokenHash = hash ∧ r.revokedAt = none ∧ r.expiresAt > now)
    ∧ (getRefreshTokenByHash db now hash = none ↔
        ∀ r ∈ db.refreshTokens, ¬(r.tokenHash = hash ∧ r.revokedAt = none ∧ r.expiresAt > now))
    ∧ (∀ (m : JWTManager) (req : RefreshRequest) (tokenBytes : List Nat) (ua ip : Option GoStr),
        validateRefresh req = [] →
        getRefreshTokenByHash db now (hashRefreshToken req.refreshToken) = none →
        (refreshHandler m db req tokenBytes now ua ip).outcome = .invalidRefreshToken
        ∧ (refreshHandler m db req tokenBytes now ua ip).db = db) := by
  refine ⟨fun r h => getRefreshTokenByHash_some db now hash r h,
          getRefreshTokenByHash_eq_none_iff db now hash, ?_⟩
  intro m req tokenBytes ua ip hv hnone
  constructor <;> simp [refreshHandler, hv, hnone]

/-- Witness for C2: a never-issued token misses the lookup and draws the
invalid-refresh-token outcome. -/
theorem refresh_active_lookup_characterization_witness :
    validateRefresh exampleRefreshRequest = []
    ∧ (refreshHandler exampleManager exampleEmptyDB exampleRefreshRequest [] 500 none
        none).outcome = RefreshOutcome.invalidRefreshToken :=
  ⟨by decide,
   ((refresh_active_lookup_characterization exampleEmptyDB 500
       (hashRefreshToken exampleRefreshRequest.refreshToken)).2.2 exampleManager
       exampleRefreshRequest [] none none (by decide) rfl).1⟩

/-! ## C9: registration validation guard -/

/-- C9: a registration whose password is shorter than 8 bytes, or whose
trimmed email is empty or fails the format check, or whose trimmed name is
empty or longer than 100 bytes, fails validation: the handler returns the
field-level validation outcome, creates no user, and performs no password
hashing (and no store operation at all). -/
theorem register_invalid_input_guard (db : Database) (req : RegisterRequest) (newUserID : Nat)
    (h : req.password.length < 8
        ∨ trimSpace req.email = [] ∨ isValidEmail (trimSpace req.email) = false
        ∨ trimSpace req.name = [] ∨ (trimSpace req.name).length > 100) :
    (registerHandler db req newUserID).outcome
        = .validationFailed (validateRegister req).1
    ∧ (registerHandler db req newUserID).db = db
    ∧ (registerHandler db req newUserID).ops = [] := by
  have hne : (validateRegister req).1 ≠ [] := by
    intro hnil
    simp only [validateRegister] at hnil
    rw [List.append_eq_nil, List.append_eq_nil] at hnil
    obtain ⟨⟨he, hn⟩, hp⟩ := hnil
    rcases h with h | h | h | h | h
    · by_cases h0 : req.password = []
      · rw [if_pos h0] at hp; exact absurd hp (by simp)
      · rw [if_neg h0, if_pos h] at hp; exact absurd hp (by simp)
    · rw [if_pos h] at he; exact absurd he (by simp)
    · by_cases h0 : trimSpace req.email = []
      · rw [if_pos h0] at he; exact absurd he (by simp)
      · rw [if_neg h0, if_pos (show (!isValidEmail (trimSpace req.email)) = true by simp [h])] at he
        exact absurd he (by simp)
    · rw [if_pos h] at hn; exact absurd hn (by simp)
    · by_cases h0 : trimSpace req.name = []
      · rw [if_pos h0] at hn; exact absurd hn (by simp)
      · rw [if_neg h0, if_pos h] at hn; exact absurd hn (by simp)
  refine ⟨?_, ?_, ?_⟩ <;> simp [registerHandler, hne]

/-- Witness for C9: a 5-byte password is rejected with no user created and
no hashing performed. -/
theorem register_invalid_input_guard_witness :
    (registerHandler exampleEmptyDB
        { email := asciiBytes ("a@b.com"), name := asciiBytes ("Name"),
          password := asciiBytes ("short") } 5).outcome
      = .validationFailed (validateRegister
          { email := asciiBytes ("a@b.com"), name := asciiBytes ("Name"),
            password := asciiBytes ("short") }).1
    ∧ (registerHandler exampleEmptyDB
        { email := asciiBytes ("a@b.com"), name := asciiBytes ("Name"),
          password := asciiBytes ("short") } 5).ops = [] :=
  ⟨(register_invalid_input_guard exampleEmptyDB _ 5 (Or.inl (by decide))).1,
   (register_invalid_input_guard exampleEmptyDB _ 5 (Or.inl (by decide))).2.2⟩

/-! ## C10: refresh validation guard -/

/-- C10: a Refresh request whose refresh_token is empty or whitespace-only
is rejected by validation: the handler returns the 400-class validation
outcome without computing any digest or touching the store (empty
operation trace, database unchanged), so the request never reaches the
unauthorized invalid-refresh-token path. -/
theorem refresh_blank_token_validation_guard (m : JWTManager) (db : Database)
    (req : RefreshRequest) (tokenBytes : List Nat) (now : Int) (ua ip : Option GoStr)
    (h : trimSpace req.refreshToken = []) :
    (refreshHandler m db req tokenBytes now ua ip).outcome
        = .validationFailed [(("refresh_token" : String), ("refresh_token is required" : String))]
    ∧ (refreshHandler m db req tokenBytes now ua ip).db = db
    ∧ (refreshHandler m db req tokenBytes now ua ip).ops = [] := by
  have hv : validateRefresh req
      = [(("refresh_token" : String), ("refresh_token is required" : String))] := by
    simp [validateRefresh, h]
  refine ⟨?_, ?_, ?_⟩ <;> simp [refreshHandler, hv]

/-- Witness for C10: a whitespace-only refresh_token draws the validation
outcome and leaves the store untouched. -/
theorem refresh_blank_token_validation_guard_witness :
    (refreshHandler exampleManager exampleDB { refreshToken := asciiBytes ("   ") }
        [] 500 none none).outcome
      = .validationFailed [(("refresh_token" : String), ("refresh_token is required" : String))]
    ∧ (refreshHandler exampleManager exampleDB { refreshToken := asciiBytes ("   ") }
        [] 500 none none).db = exampleDB :=
  ⟨(refresh_blank_token_validation_guard exampleManager exampleDB _ [] 500 none none
      (by decide)).1,
   (refresh_blank_token_validation_guard exampleManager exampleDB _ [] 500 none none
      (by decide)).2.1⟩

/-! ## C3: error taxonomy of access-token validation -/

/-- C3: ValidateAccessToken returns the expired error exactly when the
token is well-formed, carries an HMAC-family algorithm, is correctly
signed under the manager's secret, and its expiry has passed (the token is
valid only while now is strictly before exp, so the boundary instant
now = exp is already expired); every other failure — malformed token,
non-HMAC algorithm (alg:none or asymmetric), or bad signature under the
manager's key — yields the distinct invalid-token error; and a token
issued with a negative access TTL always validates to the expired error,
never the invalid one. -/
theorem validateAccessToken_error_taxonomy (m : JWTManager) (tok : TokenString) (now : Int) :
    (validateAccessToken m tok now = .error .expiredToken ↔
      ∃ (t : SignedJWT) (e : Int), tok = .wellFormed t ∧ t.alg.isHMAC = true
        ∧ t.sig = { key := m.secretKey, alg := t.alg, payload := t.claims }
        ∧ t.claims.expiresAt = some e ∧ now ≥ e)
    ∧ (∀ t : SignedJWT, tok = .wellFormed t → t.alg.isHMAC = false →
        validateAccessToken m tok now = .error .invalidToken)
    ∧ (∀ t : SignedJWT, tok = .wellFormed t → t.alg.isHMAC = true →
        t.sig ≠ { key := m.secretKey, alg := t.alg, payload := t.claims } →
        validateAccessToken m tok now = .error .invalidToken)
    ∧ (∀ raw : GoStr, tok = .malformed raw →
        validateAccessToken m tok now = .error .invalidToken)
    ∧ (∀ (uid : Nat) (email role : GoStr) (t0 : Int),
        m.accessTokenExpiry < 0 → t0 ≤ now →
        validateAccessToken m (generateAccessToken m uid email role t0) now
          = .error .expiredToken) := by
  have tailNe : ∀ (c : Bool) (x : JWTClaims),
      (if c = true then (Except.error TokenError.invalidToken)
       else Except.ok x) ≠ Except.error TokenError.expiredToken := by
    intro c x
    cases c <;> simp
  refine ⟨⟨?_, ?_⟩, ?_, ?_, ?_, ?_⟩
  · intro hval
    cases tok with
    | malformed raw => simp [validateAccessToken] at hval
    | wellFormed t =>
      simp only [validateAccessToken] at hval
      by_cases halg : t.alg.isHMAC = true
      · rw [if_neg (by simp [halg])] at hval
        by_cases hsig : t.sig = { key := m.secretKey, alg := t.alg, payload := t.claims }
        · rw [if_neg (by simp [hsig])] at hval
          cases hexp : t.claims.expiresAt with
          | none =>
            rw [hexp] at hval
            rw [if_neg (by simp)] at hval
            exact absurd hval (tailNe _ _)
          | some e =>
            rw [hexp] at hval
            by_cases hle : now ≥ e
            · exact ⟨t, e, rfl, halg, hsig, hexp, hle⟩
            · rw [if_neg (by simp [hle])] at hval
              exact absurd hval (tailNe _ _)
        · rw [if_pos (by simp [hsig])] at hval
          exact absurd hval (by simp)
      · rw [if_pos (by simp [halg])] at hval
        exact absurd hval (by simp)
  · rintro ⟨t, e, rfl, halg, hsig, hexp, hle⟩
    simp [validateAccessToken, halg, hsig, hexp, hle]
  · rintro t rfl halg
    simp [validateAccessToken, halg]
  · rintro t rfl halg hsig
    simp only [validateAccessToken]
    rw [if_neg (by simp [halg])]
    rw [if_pos hsig]
  · rintro raw rfl
    simp [validateAccessToken]
  · intro uid email role t0 httl ht0
    simp only [generateAccessToken, validateAccessToken]
    rw [if_neg (by simp [SigningAlg.isHMAC])]
    rw [if_neg (by simp)]
    rw [if_pos (by simp only [decide_eq_true_eq]; omega)]

/-- Witness for C3: under a manager configured with a negative access TTL,
a freshly issued token validates to the expired error. -/
theorem validateAccessToken_error_taxonomy_witness :
    validateAccessToken
        { secretKey := asciiBytes ("unit-test-secret"), accessTokenExpiry := -3600,
          refreshTokenExpiry := 604800 }
        (generateAccessToken
          { secretKey := asciiBytes ("unit-test-secret"), accessTokenExpiry := -3600,
            refreshTokenExpiry := 604800 }
          1 (asciiBytes ("login@example.com")) (asciiBytes ("user")) 1000) 1000
      = .error .expiredToken :=
  (validateAccessToken_error_taxonomy
      { secretKey := asciiBytes ("unit-test-secret"), accessTokenExpiry := -3600,
        refreshTokenExpiry := 604800 }
      (.malformed []) 1000).2.2.2.2 1 (asciiBytes ("login@example.com")) (asciiBytes ("user"))
      1000 (by decide) (by decide)

/-! ## C7: contents of an issued access token -/

/-- C7: an access token issued at time now carries exactly the claims
exp = now + accessTTL, iat = nbf = now, subject = the string form of the
user id, issuer = bamboo-mapper, plus the user's id, email and role, and
is signed HS256 under the manager's single symmetric secret: within its
validity window (from issuance up to but excluding the expiry instant) it
verifies under the same manager to precisely those claims. -/
theorem generateAccessToken_claims_contract (m : JWTManager) (uid : Nat) (email role : GoStr)
    (now tv : Int) (h1 : now ≤ tv) (h2 : tv < now + m.accessTokenExpiry) :
    (∃ t : SignedJWT, generateAccessToken m uid email role now = .wellFormed t
        ∧ t.alg = .HS256 ∧ t.sig.key = m.secretKey
        ∧ t.claims.expiresAt = some (now + m.accessTokenExpiry)
        ∧ t.claims.issuedAt = some now ∧ t.claims.notBefore = some now)
    ∧ validateAccessToken m (generateAccessToken m uid email role now) tv
        = .ok { userID := uid, email := email, role := role,
                expiresAt := some (now + m.accessTokenExpiry),
                issuedAt := some now, notBefore := some now,
                issuer := asciiBytes ("bamboo-mapper"), subject := uuidString uid } := by
  refine ⟨⟨_, rfl, rfl, rfl, rfl, rfl, rfl⟩, ?_⟩
  simp only [generateAccessToken, validateAccessToken]
  rw [if_neg (by simp [SigningAlg.isHMAC])]
  rw [if_neg (by simp)]
  rw [if_neg (by simp only [decide_eq_true_eq]; omega)]
  rw [if_neg (by simp only [decide_eq_true_eq]; omega)]

/-- Witness for C7: a token issued at 1000 under the example manager
verifies at 1500 to exactly the issued claims. -/
theorem generateAccessToken_claims_contract_witness :
    validateAccessToken exampleManager
        (generateAccessToken exampleManager 1 (asciiBytes ("login@example.com"))
          (asciiBytes ("user")) 1000) 1500
      = .ok { userID := 1, email := asciiBytes ("login@example.com"),
              role := asciiBytes ("user"),
              expiresAt := some (1000 + exampleManager.accessTokenExpiry),
              issuedAt := some 1000, notBefore := some 1000,
              issuer := asciiBytes ("bamboo-mapper"), subject := uuidString 1 } :=
  (generateAccessToken_claims_contract exampleManager 1 (asciiBytes ("login@example.com"))
      (asciiBytes ("user")) 1000 1500 (by decide) (by decide)).2

/-! ## Length facts about the encodings -/

/-- Hex encoding doubles the length. -/
theorem bytesToHex_length (bs : List Nat) : (bytesToHex bs).length = 2 * bs.length := by
  induction bs with
  | nil => rfl
  | cons b rest ih =>
    simp only [bytesToHex, List.flatMap_cons, List.length_append, List.length_cons,
      List.length_nil] at ih ⊢
    omega

/-- A SHA-256 digest is 32 bytes. -/
theorem sha256Bytes_length (msg : List Nat) : (sha256Bytes msg).length = 32 := by
  simp [sha256Bytes, beBytes]

/-- Padded base64 length: four output bytes per three input bytes, rounded
up. -/
theorem base64url_length (bs : List Nat) : (base64url bs).length = 4 * ((bs.length + 2) / 3) := by
  match bs with
  | [] => rfl
  | [b1] => simp [base64url]
  | [b1, b2] => simp [base64url]
  | b1 :: b2 :: b3 :: rest =>
    have ih := base64url_length rest
    simp only [base64url, List.length_append, List.length_cons, ih, List.length_nil]
    omega

/-! ## C8: the refresh-token digest pipeline -/

/-- C8: the digest returned by GenerateRefreshToken equals HashRefreshToken
applied to the returned raw secret (issuance and lookup agree on one pure
digest function), the returned expiry is the issuance time plus the
configured refresh TTL, the raw token and digest are independent of the
manager configuration and the clock (no per-process salt: any process
recomputes the same digest), and the digest handed to storage is not the
raw secret itself. -/
theorem generateRefreshToken_digest_contract (m : JWTManager) (tokenBytes : List Nat)
    (now : Int) (h32 : tokenBytes.length = 32) :
    (generateRefreshToken m tokenBytes now).tokenHash
        = hashRefreshToken ((generateRefreshToken m tokenBytes now).rawToken)
    ∧ (generateRefreshToken m tokenBytes now).expiresAt = now + m.refreshTokenExpiry
    ∧ (∀ (m' : JWTManager) (now' : Int),
        (generateRefreshToken m' tokenBytes now').tokenHash
          = (generateRefreshToken m tokenBytes now).tokenHash
        ∧ (generateRefreshToken m' tokenBytes now').rawToken
          = (generateRefreshToken m tokenBytes now).rawToken)
    ∧ (generateRefreshToken m tokenBytes now).tokenHash
        ≠ (generateRefreshToken m tokenBytes now).rawToken := by
  refine ⟨rfl, rfl, fun m' now' => ⟨rfl, rfl⟩, ?_⟩
  intro heq
  have h1 : ((generateRefreshToken m tokenBytes now).tokenHash).length = 64 := by
    simp [generateRefreshToken, bytesToHex_length, sha256Bytes_length]
  have h2 : ((generateRefreshToken m tokenBytes now).rawToken).length = 44 := by
    simp [generateRefreshToken, base64url_length, h32]
  rw [heq, h2] at h1
  exact absurd h1 (by omega)

/-- Witness for C8: with 32 random bytes, the returned digest is the hash
of the returned raw token and the expiry is now plus the refresh TTL. -/
theorem generateRefreshToken_digest_contract_witness :
    (generateRefreshToken exampleManager (List.replicate 32 0) 500).tokenHash
        = hashRefreshToken ((generateRefreshToken exampleManager (List.replicate 32 0) 500).rawToken)
    ∧ (generateRefreshToken exampleManager (List.replicate 32 0) 500).expiresAt
        = 500 + exampleManager.refreshTokenExpiry :=
  ⟨(generateRefreshToken_digest_contract exampleManager (List.replicate 32 0) 500 (by decide)).1,
   (generateRefreshToken_digest_contract exampleManager (List.replicate 32 0) 500 (by decide)).2.1⟩

/-! ## C4: login behaviour when the email matches no user -/

/-- Counterexample for C4: on a store without the requested email, Login
returns without performing a single bcrypt comparison (its operation trace
counts zero), while the wrong-password path performs exactly one — the
missing-user path does not proceed to password verification and does not
perform comparable work. -/
theorem login_missing_user_skips_comparison :
    ((loginHandler exampleManager exampleDB missingUserLoginRequest [] 500 none none).ops.count
        StoreOp.opBcryptCompare = 0)
    ∧ ((loginHandler exampleManager exampleDB wrongPasswordLoginRequest [] 500 none none).ops.count
        StoreOp.opBcryptCompare = 1) := by
  constructor <;> decide

/-- C4 (amended): when the email matches no user, Login returns early with
the invalid-credentials outcome and performs no password comparison at
all; nevertheless the missing-user case and the wrong-password case return
the one identical invalid-credentials error. -/
theorem login_uniform_invalid_credentials (m : JWTManager) (db : Database)
    (req : LoginRequest) (tokenBytes : List Nat) (now : Int) (ua ip : Option GoStr)
    (hv : (validateLogin req).1 = []) :
    (getUserByEmail db (toLowerAscii (trimSpace req.email)) = none →
        (loginHandler m db req tokenBytes now ua ip).outcome = .invalidCredentials
        ∧ (loginHandler m db req tokenBytes now ua ip).ops.count .opBcryptCompare = 0)
    ∧ (∀ user : User, getUserByEmail db (toLowerAscii (trimSpace req.email)) = some user →
        bcryptCompare user.passwordHash req.password = false →
        (loginHandler m db req tokenBytes now ua ip).outcome = .invalidCredentials) := by
  constructor
  · intro hnone
    have hnone' : getUserByEmail db (toLowerAscii (validateLogin req).2.email) = none := by
      rw [show (validateLogin req).2.email = trimSpace req.email from rfl]
      exact hnone
    constructor <;> simp [loginHandler, hv, hnone']
  · intro user huser hcmp
    have huser' : getUserByEmail db (toLowerAscii (validateLogin req).2.email) = some user := by
      rw [show (validateLogin req).2.email = trimSpace req.email from rfl]
      exact huser
    have hcmp' : bcryptCompare user.passwordHash (validateLogin req).2.password = false := by
      rw [show (validateLogin req).2.password = req.password from rfl]
      exact hcmp
    simp [loginHandler, hv, huser', hcmp']

/-- Witness for C4 (amended): the two failure modes yield the same
outcome value on concrete requests. -/
theorem login_uniform_invalid_credentials_witness :
    (loginHandler exampleManager exampleDB missingUserLoginRequest [] 500 none none).outcome
        = LoginOutcome.invalidCredentials
    ∧ (loginHandler exampleManager exampleDB wrongPasswordLoginRequest [] 500 none none).outcome
        = LoginOutcome.invalidCredentials :=
  ⟨((login_uniform_invalid_credentials exampleManager exampleDB missingUserLoginRequest []
        500 none none (by decide)).1 (by decide)).1,
   (login_uniform_invalid_credentials exampleManager exampleDB wrongPasswordLoginRequest []
        500 none none (by decide)).2 exampleUser (by decide) (by decide)⟩

/-! ## C6: logout revokes every active session of the user -/

/-- C6: Logout (modelled from the spec over the RevokeAllUserRefreshTokens
query present in the source) sets the revocation timestamp on every
still-active refresh row owned by the user — all concurrent sessions, not
only the one whose access token authenticated the call — so that a
subsequent Refresh presenting any refresh token that mapped to that user
before the logout draws the invalid-refresh-token outcome. -/
theorem logout_revokes_all_sessions (m : JWTManager) (db : Database) (uid : Nat) (now : Int) :
    (∀ r ∈ (logoutHandler db uid now).db.refreshTokens, r.userID = uid → r.revokedAt ≠ none)
    ∧ (∀ (req : RefreshRequest) (tokenBytes : List Nat) (now2 : Int) (ua ip : Option GoStr),
        validateRefresh req = [] →
        (∀ r ∈ db.refreshTokens,
            r.tokenHash = hashRefreshToken req.refreshToken → r.userID = uid) →
        (refreshHandler m (logoutHandler db uid now).db req tokenBytes now2 ua ip).outcome
          = .invalidRefreshToken) := by
  constructor
  · intro r hr hru
    simp only [logoutHandler, revokeAllUserRefreshTokens] at hr
    rw [List.mem_map] at hr
    obtain ⟨r0, hr0, heq⟩ := hr
    by_cases hc : r0.userID = uid ∧ r0.revokedAt = none
    · rw [if_pos hc] at heq
      rw [← heq]
      simp
    · rw [if_neg hc] at heq
      subst heq
      exact fun hn => hc ⟨hru, hn⟩
  · intro req tokenBytes now2 ua ip hv hown
    have hnone : getRefreshTokenByHash (logoutHandler db uid now).db now2
        (hashRefreshToken req.refreshToken) = none := by
      rw [getRefreshTokenByHash_eq_none_iff]
      intro r hr hc
      simp only [logoutHandler, revokeAllUserRefreshTokens] at hr
      rw [List.mem_map] at hr
      obtain ⟨r0, hr0, heq⟩ := hr
      by_cases hcond : r0.userID = uid ∧ r0.revokedAt = none
      · rw [if_pos hcond] at heq
        rw [← heq] at hc
        simp at hc
      · rw [if_neg hcond] at heq
        subst heq
        exact (fun hn => hcond ⟨hown r0 hr0 hc.1, hn⟩) hc.2.1
    simp [refreshHandler, hv, hnone]

set_option maxRecDepth 40000 in
/-- Witness for C6: after user 1 logs out of a two-session store, both
session tokens fail to refresh. -/
theorem logout_revokes_all_sessions_witness :
    (refreshHandler exampleManager (logoutHandler exampleTwoSessionDB 1 600).db
        exampleRefreshRequest [] 700 none none).outcome
      = RefreshOutcome.invalidRefreshToken
    ∧ (refreshHandler exampleManager (logoutHandler exampleTwoSessionDB 1 600).db
        { refreshToken := exampleRawToken2 } [] 700 none none).outcome
      = RefreshOutcome.invalidRefreshToken :=
  ⟨(logout_revokes_all_sessions exampleManager exampleTwoSessionDB 1 600).2
      exampleRefreshRequest [] 700 none none (by decide) (by decide),
   (logout_revokes_all_sessions exampleManager exampleTwoSessionDB 1 600).2
      { refreshToken := exampleRawToken2 } [] 700 none none (by decide) (by decide)⟩

/-! ## C5: concurrent refreshes of the same token -/

set_option maxRecDepth 200000 in
/-- C5 fails on the code: the handler issues its SELECT and its rotation
UPDATE as separate statements with no transaction, so in the
statement-interleaved semantics two simultaneous Refresh calls presenting
the same raw secret can both observe the token as active and both finish
successfully — not exactly one success and one failure.  The schedule
interleaves the two lookups before either revocation. -/
theorem refresh_concurrent_double_success :
    ((runSchedule exampleManager exampleThreadA exampleThreadB
        [true, false, true, true, true, false, false, false]
        { phaseA := .start, phaseB := .start, db := exampleDB }).phaseA.isOk = true)
    ∧ ((runSchedule exampleManager exampleThreadA exampleThreadB
        [true, false, true, true, true, false, false, false]
        { phaseA := .start, phaseB := .start, db := exampleDB }).phaseB.isOk = true) := by
  constructor <;> decide

/-! ## C1: rotation makes every refresh token single-use (sequentially) -/

/-- C1: a successful Refresh revokes every stored row carrying the
presented secret's digest before inserting the replacement (whose digest
is fresh), so afterwards the active lookup misses that digest at every
time instant, and any subsequent sequential Refresh presenting the same
raw secret draws the invalid-refresh-token outcome — the same value an
unknown, never-issued secret draws — and leaves the store unchanged. -/
theorem refresh_rotation_single_use (m : JWTManager) (db : Database) (req : RefreshRequest)
    (tokenBytes : List Nat) (now : Int) (ua ip : Option GoStr)
    (hok : ((refreshHandler m db req tokenBytes now ua ip).outcome).isOk = true)
    (hfresh : (generateRefreshToken m tokenBytes now).tokenHash
        ≠ hashRefreshToken req.refreshToken) :
    (∀ t : Int, getRefreshTokenByHash (refreshHandler m db req tokenBytes now ua ip).db t
        (hashRefreshToken req.refreshToken) = none)
    ∧ (∃ uid : Nat,
        (refreshHandler m db req tokenBytes now ua ip).ops
          = [.opGetRefreshToken (hashRefreshToken req.refreshToken),
             .opRevokeRefreshToken (hashRefreshToken req.refreshToken),
             .opGetUserByID uid,
             .opCreateRefreshToken (generateRefreshToken m tokenBytes now).tokenHash])
    ∧ (∀ (tb2 : List Nat) (now2 : Int) (ua2 ip2 : Option GoStr),
        (refreshHandler m (refreshHandler m db req tokenBytes now ua ip).db req
            tb2 now2 ua2 ip2).outcome = .invalidRefreshToken
        ∧ (refreshHandler m (refreshHandler m db req tokenBytes now ua ip).db req
            tb2 now2 ua2 ip2).db = (refreshHandler m db req tokenBytes now ua ip).db) := by
  by_cases hv : validateRefresh req = []
  · cases hlook : getRefreshTokenByHash db now (hashRefreshToken req.refreshToken) with
    | none =>
      exfalso
      have hout : (refreshHandler m db req tokenBytes now ua ip).outcome
          = .invalidRefreshToken := by
        simp [refreshHandler, hv, hlook]
      rw [hout] at hok
      simp [RefreshOutcome.isOk] at hok
    | some stored =>
      cases huser : getUserByID (revokeRefreshToken db now (hashRefreshToken req.refreshToken))
          stored.userID with
      | none =>
        exfalso
        have hout : (refreshHandler m db req tokenBytes now ua ip).outcome
            = .internalError ("Failed to fetch user") := by
          simp [refreshHandler, hv, hlook, huser]
        rw [hout] at hok
        simp [RefreshOutcome.isOk] at hok
      | some user =>
        have hdb : (refreshHandler m db req tokenBytes now ua ip).db
            = (createRefreshToken (revokeRefreshToken db now (hashRefreshToken req.refreshToken))
                now
                { userID := stored.userID,
                  tokenHash := (generateRefreshToken m tokenBytes now).tokenHash,
                  expiresAt := (generateRefreshToken m tokenBytes now).expiresAt,
                  userAgent := ua, ipAddress := ip }).2 := by
          simp [refreshHandler, hv, hlook, huser]
        have hall : ∀ t : Int, getRefreshTokenByHash (refreshHandler m db req tokenBytes now ua ip).db t
            (hashRefreshToken req.refreshToken) = none := by
          intro t
          rw [getRefreshTokenByHash_eq_none_iff]
          intro r hr hc
          rw [hdb] at hr
          simp only [createRefreshToken, revokeRefreshToken] at hr
          rw [List.mem_append] at hr
          rcases hr with hr | hr
          · rw [List.mem_map] at hr
            obtain ⟨r0, hr0, heq⟩ := hr
            by_cases h0 : r0.tokenHash = hashRefreshToken req.refreshToken
            · rw [if_pos h0] at heq
              rw [← heq] at hc
              simp at hc
            · rw [if_neg h0] at heq
              subst heq
              exact h0 hc.1
          · rw [List.mem_singleton] at hr
            subst hr
            exact hfresh (by simpa using hc.1)
        refine ⟨hall, ⟨stored.userID, by simp [refreshHandler, hv, hlook, huser]⟩, ?_⟩
        intro tb2 now2 ua2 ip2
        have hnone := hall now2
        revert hnone
        generalize (refreshHandler m db req tokenBytes now ua ip).db = db1
        intro hnone
        constructor <;> simp [refreshHandler, hv, hnone]
  · exfalso
    have hout : (refreshHandler m db req tokenBytes now ua ip).outcome
        = .validationFailed (validateRefresh req) := by
      simp [refreshHandler, hv]
    rw [hout] at hok
    simp [RefreshOutcome.isOk] at hok

set_option maxRecDepth 200000 in
/-- Witness for C1: after a successful refresh of the example token, a
second sequential refresh with the same raw secret fails with the
invalid-refresh-token outcome. -/
theorem refresh_rotation_single_use_witness :
    (refreshHandler exampleManager
        (refreshHandler exampleManager exampleDB exampleRefreshRequest
          (List.replicate 32 1) 500 none none).db
        exampleRefreshRequest (List.replicate 32 2) 600 none none).outcome
      = RefreshOutcome.invalidRefreshToken :=
  ((refresh_rotation_single_use exampleManager exampleDB exampleRefreshRequest
      (List.replicate 32 1) 500 none none (by decide) (by decide)).2.2
      (List.replicate 32 2) 600 none none).1
